import Mathlib

/-!
Verification of the booking-system frontend (React SPA).

The development shallowly embeds the components the claims concern:

* `BookingForm` (src/components/BookingForm.jsx): form state, the
  `validateForm` guard, the `handleSubmit` payload construction, and the
  JSX render gates for the resource and status fields.
* `BookingsPage` (src/pages/BookingsPage.jsx): the per-row action cell,
  `handleCancelBooking` (success filter and error-message selection) and
  `getStatusClass`.
* The axios request interceptor of `src/services/api.js` (as printed in
  the repository README).
* `ProfilePictureUpload` (src/components/ProfilePictureUpload.jsx):
  `handleFileSelect` validation and network-issuing phases.

JavaScript `Date` values compare numerically, so times are embedded as
`Int` epoch milliseconds; nullable JS values become `Option`; the DOM and
network are made explicit as data returned by the embedded handlers.
-/

namespace BookingSystem

/-! ## BookingForm (src/components/BookingForm.jsx) -/

/-- State of the `BookingForm` component.  `resourceId` is the parsed URL
parameter, `bookingId` the edit-target id (`isEditMode = !!bookingId`),
`selectedResourceId` mirrors the controlled select (JS `''` becomes
`none`), times are `Date` values as epoch milliseconds (`null` becomes
`none`), `isAdmin` is `user?.is_staff || false`. -/
structure FormState where
  resourceId : Option Nat
  bookingId : Option Nat
  selectedResourceId : Option Nat
  resourceName : String
  startTime : Option Int
  endTime : Option Int
  notes : String
  status : String
  isAdmin : Bool
  deriving Repr, DecidableEq

/-- `isEditMode = !!bookingId`. -/
def isEditMode (f : FormState) : Bool :=
  f.bookingId.isSome

/-- `validateForm`: returns the error message set on failure, `none` on
success.  `now` is the value of `new Date()` at validation time. -/
def validateForm (f : FormState) (now : Int) : Option String :=
  if f.selectedResourceId.isNone then
    some "Please select a resource"
  else if f.startTime.isNone then
    some "Please select a start time"
  else if f.endTime.isNone then
    some "Please select an end time"
  else if f.startTime.getD 0 ≥ f.endTime.getD 0 then
    some "End time must be after start time"
  else if !isEditMode f ∧ f.startTime.getD 0 < now then
    some "Start time cannot be in the past"
  else
    none

/-- The JSON payload `bookingData` built by `handleSubmit`; `status` is
present exactly when it was added by the edit-mode branch. -/
structure BookingData where
  resource : Option Nat
  start_time : Option Int
  end_time : Option Int
  notes : String
  status : Option String
  deriving Repr, DecidableEq

/-- An HTTP call issued through the api client by the form. -/
inductive ApiCall where
  | post (url : String) (data : BookingData)
  | put (url : String) (data : BookingData)
  deriving Repr, DecidableEq

/-- The payload assembled inside `handleSubmit` after validation. -/
def bookingData (f : FormState) : BookingData :=
  { resource := f.selectedResourceId
    start_time := f.startTime
    end_time := f.endTime
    notes := f.notes.trim
    status := if isEditMode f then some f.status else none }

/-- `handleSubmit`: runs `validateForm`; on failure no request is issued,
on success a PUT (edit mode) or POST (create mode) is issued with the
assembled payload. -/
def handleSubmit (f : FormState) (now : Int) : Option ApiCall :=
  if (validateForm f now).isSome then
    none
  else if isEditMode f then
    some (.put ("/bookings/" ++ toString (f.bookingId.getD 0) ++ "/") (bookingData f))
  else
    some (.post "/bookings/" (bookingData f))

/-- Render gate of the resource `<select>`: `!resourceId && !isEditMode`. -/
def resourceSelectRendered (f : FormState) : Bool :=
  f.resourceId.isNone && !isEditMode f

/-- Render gate of the disabled resource text input: `isEditMode`. -/
def resourceDisabledInputRendered (f : FormState) : Bool :=
  isEditMode f

/-- Render gate of the status `<select>`: the JSX is `{isEditMode && (...)}`,
with no reference to `isAdmin`. -/
def statusSelectRendered (f : FormState) : Bool :=
  isEditMode f

/-- The `<option>` values of the status select, in source order. -/
def statusSelectOptions : List String :=
  ["pending", "confirmed", "cancelled", "rejected"]

/-- The disabled resource text input shown in edit mode: fixed `disabled`
attribute, value bound to `resourceName`.  `none` when not rendered. -/
structure TextInput where
  value : String
  disabled : Bool
  deriving Repr, DecidableEq

/-- The edit-mode resource input as rendered: `{isEditMode && (<input
value={resourceName} disabled .../>)}`. -/
def editResourceInput (f : FormState) : Option TextInput :=
  if isEditMode f then some { value := f.resourceName, disabled := true } else none

/-- The booking record fetched by `fetchBooking` in edit mode (fields read
from `response.data`). -/
structure FetchedBooking where
  resource : Nat
  resource_name : Option String
  start_time : Option Int
  end_time : Option Int
  notes : Option String
  status : Option String
  deriving Repr, DecidableEq

/-- Form state after `fetchBooking` pre-populates the form in edit mode
(route `/bookings/edit/:bookingId`, so `resourceId` is `null`). -/
def initEditState (bookingId : Nat) (isAdmin : Bool) (b : FetchedBooking) : FormState :=
  { resourceId := none
    bookingId := some bookingId
    selectedResourceId := some b.resource
    resourceName := b.resource_name.getD ("Resource " ++ toString b.resource)
    startTime := b.start_time
    endTime := b.end_time
    notes := b.notes.getD ""
    status := b.status.getD "pending"
    isAdmin := isAdmin }

/-- User-interface events the form controls can emit (each is the
`onChange` of one rendered control). -/
inductive FormEvent where
  | setStart (d : Option Int)
  | setEnd (d : Option Int)
  | setNotes (s : String)
  | setStatus (s : String)
  | selectResource (v : Option Nat)
  deriving Repr, DecidableEq

/-- Effect of each control's `onChange` on the form state. -/
def applyEvent (f : FormState) : FormEvent → FormState
  | .setStart d => { f with startTime := d }
  | .setEnd d => { f with endTime := d }
  | .setNotes s => { f with notes := s }
  | .setStatus s => { f with status := s }
  | .selectResource v => { f with selectedResourceId := v }

/-- Whether the rendered form can emit the event in state `f`: the only
control writing `selectedResourceId` is the resource select, rendered only
when `resourceSelectRendered`; status writes need the status select. -/
def uiEventAllowed (f : FormState) (e : FormEvent) : Bool :=
  match e with
  | .selectResource _ => resourceSelectRendered f
  | .setStatus _ => statusSelectRendered f
  | _ => true

/-- A sequence of events the rendered form can emit, each checked in the
state in which it fires. -/
def uiTrace (f : FormState) : List FormEvent → Bool
  | [] => true
  | e :: rest => uiEventAllowed f e && uiTrace (applyEvent f e) rest

/-- Payload carried by a form-issued call. -/
def ApiCall.data : ApiCall → BookingData
  | .post _ d => d
  | .put _ d => d

/-! ## BookingsPage (src/pages/BookingsPage.jsx) -/

/-- A booking as displayed by the bookings page (fields the row reads). -/
structure Booking where
  id : Nat
  resource_name : Option String
  start_time : String
  end_time : String
  status : String
  notes : Option String
  deriving Repr, DecidableEq

/-- A control rendered in a booking row's actions cell. -/
inductive RowAction where
  | editLink (href : String)
  | deleteButton (disabled : Bool) (label : String)
  deriving Repr, DecidableEq

/-- The actions cell of a booking row: an Edit link and a Delete button;
the button is disabled when a cancellation of this booking is in flight or
the booking is already cancelled. -/
def rowActions (cancellingId : Option Nat) (b : Booking) : List RowAction :=
  [ .editLink ("/bookings/edit/" ++ toString b.id),
    .deleteButton (cancellingId == some b.id || b.status == "cancelled")
      (if cancellingId == some b.id then "Deleting..." else "Delete") ]

/-- `getStatusClass`: object-literal lookup with `|| ''` fallback. -/
def getStatusClass (status : String) : String :=
  if status == "pending" then "status-pending"
  else if status == "confirmed" then "status-confirmed"
  else if status == "cancelled" then "status-cancelled"
  else if status == "rejected" then "status-rejected"
  else ""

/-- JS truthiness of an optional string (`undefined`, `null` and `''` are
falsy). -/
def strTruthy : Option String → Bool
  | none => false
  | some s => !s.isEmpty

/-- `err.response.data` fields read by the error handlers. -/
structure ErrData where
  detail : Option String
  message : Option String
  deriving Repr, DecidableEq

/-- The `response` part of an axios error (absent on network failure). -/
structure ErrResponse where
  status : Option Nat
  data : Option ErrData
  deriving Repr, DecidableEq

/-- An axios/JS error object as read by `handleCancelBooking`. -/
structure JsError where
  response : Option ErrResponse
  message : Option String
  deriving Repr, DecidableEq

/-- Error-message selection of `handleCancelBooking`'s catch block. -/
def cancelErrorMessage (e : JsError) : String :=
  if (e.response.bind ErrResponse.status) == some 403 then
    "You do not have permission to cancel this booking. Please contact an administrator."
  else if (e.response.bind ErrResponse.status) == some 404 then
    "Booking not found. It may have already been cancelled."
  else if strTruthy ((e.response.bind ErrResponse.data).bind ErrData.detail) then
    "Failed to cancel booking. " ++ ((e.response.bind ErrResponse.data).bind ErrData.detail).getD ""
  else if strTruthy ((e.response.bind ErrResponse.data).bind ErrData.message) then
    "Failed to cancel booking. " ++ ((e.response.bind ErrResponse.data).bind ErrData.message).getD ""
  else if strTruthy e.message then
    "Failed to cancel booking. " ++ e.message.getD ""
  else
    "Failed to cancel booking. " ++ "Please try again or contact support."

/-- Result of the `api.delete` call inside `handleCancelBooking`. -/
inductive DeleteOutcome where
  | ok
  | err (e : JsError)
  deriving Repr, DecidableEq

/-- `handleCancelBooking`: after the confirm dialog, a successful DELETE
filters the booking out of local state and alerts success; a failure
leaves the list untouched and alerts the selected message.  Returns the
new bookings list and the alert text (if any). -/
def handleCancelBooking (bookings : List Booking) (bookingId : Nat)
    (confirmed : Bool) (outcome : DeleteOutcome) : List Booking × Option String :=
  if !confirmed then
    (bookings, none)
  else
    match outcome with
    | .ok => (bookings.filter (fun b => b.id != bookingId), some "Booking cancelled successfully!")
    | .err e => (bookings, some (cancelErrorMessage e))

/-! ## Axios request interceptor (src/services/api.js, printed in README) -/

/-- Request headers as configured on the axios instance. -/
structure Headers where
  contentType : String
  authorization : Option String
  deriving Repr, DecidableEq

/-- The request interceptor: reads `localStorage.getItem('token')` and,
only if truthy, sets `config.headers.Authorization = 'Token ' + token`. -/
def requestInterceptor (token : Option String) (h : Headers) : Headers :=
  if strTruthy token then
    { h with authorization := some ("Token " ++ token.getD "") }
  else
    h

/-- The default headers of the axios instance (`Content-Type` only). -/
def baseHeaders : Headers :=
  { contentType := "application/json", authorization := none }

/-! ## ProfilePictureUpload (src/components/ProfilePictureUpload.jsx) -/

/-- JS `String.prototype.startsWith`, modelled on character sequences. -/
def jsStartsWith (s p : String) : Bool :=
  List.isPrefixOf p.data s.data

/-- The selected `File` fields the handler reads. -/
structure JsFile where
  type : String
  size : Nat
  deriving Repr, DecidableEq

/-- Network requests `handleFileSelect` can issue, in order. -/
inductive NetRequest where
  | cloudinaryUpload (file : JsFile)
  | backendPatch (profile_picture : String) (cloudinary_public_id : String)
  deriving Repr, DecidableEq

/-- Outcome of the Cloudinary POST (`ok` mirrors `response.ok`). -/
structure CloudinaryResult where
  ok : Bool
  secure_url : String
  public_id : String
  deriving Repr, DecidableEq

/-- Component state touched by `handleFileSelect`. -/
structure UploadState where
  error : String
  previewUrl : String
  deriving Repr, DecidableEq

/-- `handleFileSelect`: validates the file's MIME type and size before any
network activity; on a valid file uploads to Cloudinary and then PATCHes
the backend.  `patchErr` is the message of the error thrown by a failing
PATCH.  Returns the new state and the requests issued. -/
def handleFileSelect (st : UploadState) (file : Option JsFile)
    (cloudinary : CloudinaryResult) (patchOk : Bool) (patchErr : Option String) :
    UploadState × List NetRequest :=
  match file with
  | none => (st, [])
  | some f =>
    if !jsStartsWith f.type "image/" then
      ({ st with error := "Please select an image file" }, [])
    else if f.size > 5 * 1024 * 1024 then
      ({ st with error := "Image must be less than 5MB" }, [])
    else if !cloudinary.ok then
      ({ st with error := "Upload failed" }, [.cloudinaryUpload f])
    else if !patchOk then
      ({ st with error := if strTruthy patchErr then patchErr.getD "" else "Failed to upload image" },
        [.cloudinaryUpload f, .backendPatch cloudinary.secure_url cloudinary.public_id])
    else
      ({ error := "", previewUrl := cloudinary.secure_url },
        [.cloudinaryUpload f, .backendPatch cloudinary.secure_url cloudinary.public_id])

/-- The delete buttons of an actions cell, as (disabled, label) pairs. -/
def deleteButtons : List RowAction → List (Bool × String)
  | [] => []
  | .deleteButton d l :: rest => (d, l) :: deleteButtons rest
  | _ :: rest => deleteButtons rest

/-! ## Concrete instances used by counterexamples and witnesses -/

/-- A non-admin user (`is_staff = false`) editing a booking. -/
def c1state : FormState :=
  { resourceId := none, bookingId := some 1, selectedResourceId := some 2,
    resourceName := "Room A", startTime := none, endTime := none,
    notes := "", status := "pending", isAdmin := false }

/-- Concrete booking form with start 10 ≥ end 5. -/
def c2state : FormState :=
  { resourceId := none, bookingId := none, selectedResourceId := some 1,
    resourceName := "", startTime := some 10, endTime := some 5,
    notes := "", status := "pending", isAdmin := false }

/-- Create-mode form with every required field present but end ≤ start. -/
def c3state : FormState :=
  { resourceId := none, bookingId := none, selectedResourceId := some 1,
    resourceName := "", startTime := some 5, endTime := some 3,
    notes := "", status := "pending", isAdmin := false }

/-- A cancelled booking as displayed on the bookings page. -/
def c4booking : Booking :=
  { id := 7, resource_name := some "Room B", start_time := "2026-01-01T10:00:00Z",
    end_time := "2026-01-01T11:00:00Z", status := "cancelled", notes := none }

/-- A pending booking with no cancellation in flight. -/
def c4pending : Booking :=
  { id := 3, resource_name := some "Room C", start_time := "2026-01-02T10:00:00Z",
    end_time := "2026-01-02T11:00:00Z", status := "pending", notes := some "team" }

/-- An axios error carrying an HTTP 403 response. -/
def c5err403 : JsError :=
  { response := some { status := some 403, data := some { detail := some "Forbidden", message := none } },
    message := some "Request failed with status code 403" }

/-- A fetched booking used to exercise the edit-mode form. -/
def c9fetched : FetchedBooking :=
  { resource := 9, resource_name := some "Projector", start_time := some 0,
    end_time := some 3600000, notes := some "standup", status := some "confirmed" }

/-- Edit-mode interaction: change the start time, the notes and the
status (every control available in edit mode). -/
def c9events : List FormEvent :=
  [.setStart (some 7200000), .setNotes "moved", .setStatus "cancelled"]

/-- A selected file that is not an image. -/
def c10badFile : JsFile :=
  { type := "text/plain", size := 10 }

/-- A Cloudinary response (never reached for an invalid file). -/
def c10cloudinary : CloudinaryResult :=
  { ok := true, secure_url := "https://res.cloudinary.com/demo/pic.png", public_id := "pic" }

/-- Upload-component state before the file selection. -/
def c10state : UploadState :=
  { error := "", previewUrl := "https://res.cloudinary.com/demo/old.png" }

/-! ## Theorems -/

/-- Claim C1 is false as stated: for this user with `is_staff = false`,
editing booking 1, the status selector IS rendered. -/
theorem c1_counterexample :
    c1state.isAdmin = false ∧ statusSelectRendered c1state = true := by
  decide

/-- Claim C1 (amended): rendering of the status field is conditional on
edit mode, not on the admin role: the status selector is rendered exactly
when a booking is being edited, independently of `is_staff`, and the
submitted payload contains the status field exactly in edit mode. -/
theorem c1_amended (f : FormState) (b : Bool) (now : Int) :
    statusSelectRendered f = isEditMode f ∧
    statusSelectRendered { f with isAdmin := b } = statusSelectRendered f ∧
    Option.all (fun c => c.data.status.isSome == isEditMode f) (handleSubmit f now) = true := by
  refine ⟨rfl, rfl, ?_⟩
  unfold handleSubmit
  split
  · rfl
  · split
    · simp_all [ApiCall.data, bookingData]
    · simp_all [ApiCall.data, bookingData]

/-- Claim C2: with a resource and both times set, `startTime ≥ endTime`
makes validation fail with the date-ordering message and suppresses the
request; the request is issued exactly when `startTime < endTime` and, in
create mode, `startTime` is not in the past. -/
theorem c2_theorem (f : FormState) (now : Int) (r : Nat) (s e : Int)
    (hr : f.selectedResourceId = some r) (hs : f.startTime = some s)
    (he : f.endTime = some e) :
    (s ≥ e → validateForm f now = some "End time must be after start time" ∧
      handleSubmit f now = none) ∧
    ((handleSubmit f now).isSome = true ↔ (s < e ∧ (isEditMode f = true ∨ ¬ s < now))) := by
  constructor
  · intro hge
    have hv : validateForm f now = some "End time must be after start time" := by
      simp [validateForm, hr, hs, he, hge]
    exact ⟨hv, by simp [handleSubmit, hv]⟩
  · unfold handleSubmit validateForm
    simp [hr, hs, he]
    by_cases hse : e ≤ s
    · simp [hse]
    · by_cases hed : isEditMode f = true
      · simp [hse, hed]
        omega
      · simp [Bool.not_eq_true] at hed
        simp [hse, hed]
        omega

/-- Claim C2 witness: at the concrete form above, validation fails with
the date-ordering message and no request is issued. -/
theorem c2_witness :
    validateForm c2state 0 = some "End time must be after start time" ∧
    handleSubmit c2state 0 = none :=
  (c2_theorem c2state 0 1 10 5 rfl rfl rfl).1 (by decide)

/-- Claim C3 is false as stated: this submission is rejected locally
although every required field (resource, start, end) is present. -/
theorem c3_counterexample :
    handleSubmit c3state 0 = none ∧
    c3state.selectedResourceId.isSome = true ∧
    c3state.startTime.isSome = true ∧
    c3state.endTime.isSome = true := by
  decide

/-- Claim C3 (amended): a booking submission is rejected locally exactly
when a required field is missing, OR the end time is not after the start
time, OR (in create mode only) the start time is in the past. -/
theorem c3_amended (f : FormState) (now : Int) :
    ((validateForm f now).isSome = true ↔
      (f.selectedResourceId = none ∨ f.startTime = none ∨ f.endTime = none ∨
       (∃ s e, f.startTime = some s ∧ f.endTime = some e ∧ e ≤ s) ∨
       (isEditMode f = false ∧ ∃ s, f.startTime = some s ∧ s < now))) ∧
    (handleSubmit f now = none ↔ (validateForm f now).isSome = true) := by
  constructor
  · unfold validateForm
    cases hr : f.selectedResourceId with
    | none => simp
    | some r =>
      cases hs : f.startTime with
      | none => simp
      | some s =>
        cases he : f.endTime with
        | none => simp
        | some e =>
          simp only [Option.isNone_some, Option.getD_some, reduceCtorEq, false_or,
            Option.some.injEq, Bool.ite_eq_true_distrib]
          by_cases hse : e ≤ s
          · simp [hse]
          · by_cases hed : isEditMode f
            · simp [hse, hed]
            · simp [Bool.not_eq_true] at hed
              simp [hse, hed]
  · unfold handleSubmit
    split
    · simp_all
    · constructor
      · intro h
        split at h <;> simp_all
      · simp_all

/-- Claim C4 is false as stated: the delete button of this cancelled
booking IS shown in its row's actions cell (disabled, not hidden). -/
theorem c4_counterexample :
    c4booking.status = "cancelled" ∧
    RowAction.deleteButton true "Delete" ∈ rowActions none c4booking := by
  decide

/-- Claim C4 (amended): every booking row shows exactly one delete
button; it is disabled (not hidden) when the booking is cancelled or its
cancellation is in flight, and enabled otherwise. -/
theorem c4_amended (cid : Option Nat) (b : Booking) :
    deleteButtons (rowActions cid b) =
      [((cid == some b.id || b.status == "cancelled"),
        if cid == some b.id then "Deleting..." else "Delete")] ∧
    (b.status = "cancelled" →
      deleteButtons (rowActions cid b) =
        [(true, if cid == some b.id then "Deleting..." else "Delete")]) ∧
    (b.status ≠ "cancelled" → cid ≠ some b.id →
      deleteButtons (rowActions cid b) = [(false, "Delete")]) := by
  refine ⟨rfl, ?_, ?_⟩
  · intro hc
    simp [rowActions, deleteButtons, hc]
  · intro h1 h2
    simp [rowActions, deleteButtons, beq_eq_false_iff_ne.mpr h1,
      beq_eq_false_iff_ne.mpr h2]

/-- Claim C4 witness: a pending booking with no cancellation in flight
has an enabled delete button. -/
theorem c4_witness :
    deleteButtons (rowActions none c4pending) = [(false, "Delete")] :=
  (c4_amended none c4pending).2.2 (by decide) (by decide)

/-- Claim C5: the cancellation-failure alert is selected by status code
(403 and 404 get bespoke copy; otherwise the prefix is followed by the
response detail, else its message, else the error message, else a generic
fallback), and every failed cancellation leaves the bookings list
unchanged. -/
theorem c5_theorem (bs : List Booking) (bid : Nat) (c : Bool) (e : JsError) :
    (e.response.bind ErrResponse.status = some 403 →
      cancelErrorMessage e =
        "You do not have permission to cancel this booking. Please contact an administrator.") ∧
    (e.response.bind ErrResponse.status = some 404 →
      cancelErrorMessage e = "Booking not found. It may have already been cancelled.") ∧
    (e.response.bind ErrResponse.status ≠ some 403 →
     e.response.bind ErrResponse.status ≠ some 404 →
      (strTruthy ((e.response.bind ErrResponse.data).bind ErrData.detail) = true →
        cancelErrorMessage e =
          "Failed to cancel booking. " ++ ((e.response.bind ErrResponse.data).bind ErrData.detail).getD "") ∧
      (strTruthy ((e.response.bind ErrResponse.data).bind ErrData.detail) = false →
       strTruthy ((e.response.bind ErrResponse.data).bind ErrData.message) = true →
        cancelErrorMessage e =
          "Failed to cancel booking. " ++ ((e.response.bind ErrResponse.data).bind ErrData.message).getD "") ∧
      (strTruthy ((e.response.bind ErrResponse.data).bind ErrData.detail) = false →
       strTruthy ((e.response.bind ErrResponse.data).bind ErrData.message) = false →
       strTruthy e.message = true →
        cancelErrorMessage e = "Failed to cancel booking. " ++ e.message.getD "") ∧
      (strTruthy ((e.response.bind ErrResponse.data).bind ErrData.detail) = false →
       strTruthy ((e.response.bind ErrResponse.data).bind ErrData.message) = false →
       strTruthy e.message = false →
        cancelErrorMessage e = "Failed to cancel booking. Please try again or contact support.")) ∧
    (handleCancelBooking bs bid c (.err e)).1 = bs := by
  refine ⟨?_, ?_, ?_, ?_⟩
  · intro h
    simp [cancelErrorMessage, h]
  · intro h
    simp [cancelErrorMessage, h]
  · intro h3 h4
    have h3b : (e.response.bind ErrResponse.status == some 403) = false :=
      beq_eq_false_iff_ne.mpr h3
    have h4b : (e.response.bind ErrResponse.status == some 404) = false :=
      beq_eq_false_iff_ne.mpr h4
    refine ⟨?_, ?_, ?_, ?_⟩ <;> intros <;>
      simp_all [cancelErrorMessage]
  · cases c <;> simp [handleCancelBooking]

/-- Claim C5 witness: a 403 failure on a singleton list yields the
bespoke permission message and leaves the list unchanged. -/
theorem c5_witness :
    cancelErrorMessage c5err403 =
      "You do not have permission to cancel this booking. Please contact an administrator." ∧
    (handleCancelBooking [c4pending] 3 true (.err c5err403)).1 = [c4pending] := by
  have h := c5_theorem [c4pending] 3 true c5err403
  exact ⟨h.1 (by decide), h.2.2.2⟩

/-- Claim C6: a successful DELETE leaves the local list equal to the
previous list filtered of that id; a booking remains exactly when it was
there before and has a different id, and relative order is retained. -/
theorem c6_theorem (bs : List Booking) (bid : Nat) :
    (handleCancelBooking bs bid true .ok).1 = bs.filter (fun b => b.id != bid) ∧
    (∀ b, b ∈ (handleCancelBooking bs bid true .ok).1 ↔ (b ∈ bs ∧ b.id ≠ bid)) ∧
    List.Sublist (handleCancelBooking bs bid true .ok).1 bs := by
  refine ⟨rfl, ?_, ?_⟩
  · intro b
    simp [handleCancelBooking, List.mem_filter]
  · exact List.filter_sublist bs

/-- Claim C7 is false as stated: with no stored token, a request built
from the base axios configuration carries no Authorization header. -/
theorem c7_counterexample :
    (requestInterceptor none baseHeaders).authorization = none := by
  decide

/-- Claim C7 (amended): a request carries `Authorization: Token <token>`
exactly when a non-empty token is stored; with no token, or an empty one,
the interceptor leaves the headers unchanged. -/
theorem c7_amended (token : String) (h : Headers) :
    (token ≠ "" →
      (requestInterceptor (some token) h).authorization = some ("Token " ++ token)) ∧
    (strTruthy (some token) = false → requestInterceptor (some token) h = h) ∧
    requestInterceptor none h = h := by
  refine ⟨?_, ?_, rfl⟩
  · intro hne
    have hemp : token.isEmpty = false := by
      rw [← Bool.not_eq_true, String.isEmpty_iff]
      exact hne
    simp [requestInterceptor, strTruthy, hemp]
  · intro hf
    simp [requestInterceptor, hf]

/-- Claim C7 witness: a stored token is forwarded as `Token abc123`; an
empty stored token adds no header. -/
theorem c7_witness :
    (requestInterceptor (some "abc123") baseHeaders).authorization =
      some ("Token " ++ "abc123") ∧
    requestInterceptor (some "") baseHeaders = baseHeaders := by
  have h1 := c7_amended "abc123" baseHeaders
  have h2 := c7_amended "" baseHeaders
  exact ⟨h1.1 (by decide), h2.2.1 (by decide)⟩

/-- Claim C8: the edit form's status selector offers exactly
{pending, confirmed, cancelled, rejected}; `getStatusClass` maps exactly
these to a class name (its own each) and everything else to `''`. -/
theorem c8_theorem :
    statusSelectOptions = ["pending", "confirmed", "cancelled", "rejected"] ∧
    (∀ s, (getStatusClass s ≠ "") ↔ s ∈ statusSelectOptions) ∧
    getStatusClass "pending" = "status-pending" ∧
    getStatusClass "confirmed" = "status-confirmed" ∧
    getStatusClass "cancelled" = "status-cancelled" ∧
    getStatusClass "rejected" = "status-rejected" := by
  refine ⟨rfl, ?_, by decide, by decide, by decide, by decide⟩
  intro s
  unfold getStatusClass statusSelectOptions
  split_ifs with h1 h2 h3 h4 <;> simp_all

/-- Form events never change the route-derived fields. -/
theorem applyEvent_routeFields (f : FormState) (e : FormEvent) :
    (applyEvent f e).resourceId = f.resourceId ∧
    (applyEvent f e).bookingId = f.bookingId := by
  cases e <;> exact ⟨rfl, rfl⟩

/-- The resource-select render gate is invariant under form events. -/
theorem resourceSelectRendered_applyEvent (f : FormState) (e : FormEvent) :
    resourceSelectRendered (applyEvent f e) = resourceSelectRendered f := by
  cases e <;> rfl

/-- The resource-select render gate is invariant along any event fold. -/
theorem resourceSelectRendered_foldl (f : FormState) (evs : List FormEvent) :
    resourceSelectRendered (evs.foldl applyEvent f) = resourceSelectRendered f := by
  induction evs generalizing f with
  | nil => rfl
  | cons e rest ih => rw [List.foldl_cons, ih, resourceSelectRendered_applyEvent]

/-- Edit mode is invariant under form events. -/
theorem isEditMode_applyEvent (f : FormState) (e : FormEvent) :
    isEditMode (applyEvent f e) = isEditMode f := by
  cases e <;> rfl

/-- Edit mode is invariant along any event fold. -/
theorem isEditMode_foldl (f : FormState) (evs : List FormEvent) :
    isEditMode (evs.foldl applyEvent f) = isEditMode f := by
  induction evs generalizing f with
  | nil => rfl
  | cons e rest ih => rw [List.foldl_cons, ih, isEditMode_applyEvent]

/-- When the resource select is not rendered, no emittable event sequence
changes the selected resource. -/
theorem uiTrace_selectedResourceId (f : FormState) (evs : List FormEvent)
    (hg : resourceSelectRendered f = false) (ht : uiTrace f evs = true) :
    (evs.foldl applyEvent f).selectedResourceId = f.selectedResourceId := by
  induction evs generalizing f with
  | nil => rfl
  | cons e rest ih =>
    rw [uiTrace, Bool.and_eq_true] at ht
    have hg' : resourceSelectRendered (applyEvent f e) = false := by
      rw [resourceSelectRendered_applyEvent]
      exact hg
    have hsel : (applyEvent f e).selectedResourceId = f.selectedResourceId := by
      cases e with
      | setStart d => rfl
      | setEnd d => rfl
      | setNotes s => rfl
      | setStatus s => rfl
      | selectResource v =>
        exfalso
        have h1 := ht.1
        simp [uiEventAllowed, hg] at h1
    rw [List.foldl_cons, ih (applyEvent f e) hg' ht.2, hsel]

/-- Claim C9: in edit mode the resource select is never rendered and the
disabled resource input is; after any interaction sequence the rendered
form can emit, the selected resource (and so the resource field of any
submitted payload) still equals the fetched booking's resource. -/
theorem c9_theorem (bid : Nat) (admin : Bool) (fb : FetchedBooking)
    (evs : List FormEvent) (now : Int)
    (ht : uiTrace (initEditState bid admin fb) evs = true) :
    (evs.foldl applyEvent (initEditState bid admin fb)).selectedResourceId = some fb.resource ∧
    (bookingData (evs.foldl applyEvent (initEditState bid admin fb))).resource = some fb.resource ∧
    (∀ c, handleSubmit (evs.foldl applyEvent (initEditState bid admin fb)) now = some c →
      c.data.resource = some fb.resource) ∧
    resourceSelectRendered (evs.foldl applyEvent (initEditState bid admin fb)) = false ∧
    editResourceInput (evs.foldl applyEvent (initEditState bid admin fb)) =
      some { value := (evs.foldl applyEvent (initEditState bid admin fb)).resourceName,
             disabled := true } := by
  have hg : resourceSelectRendered (initEditState bid admin fb) = false := rfl
  have hsel : (evs.foldl applyEvent (initEditState bid admin fb)).selectedResourceId =
      some fb.resource := by
    rw [uiTrace_selectedResourceId (initEditState bid admin fb) evs hg ht]
    rfl
  refine ⟨hsel, ?_, ?_, ?_, ?_⟩
  · simp [bookingData, hsel]
  · intro c hc
    unfold handleSubmit at hc
    split at hc
    · exact absurd hc (by simp)
    · split at hc <;>
      · rw [Option.some.injEq] at hc
        subst hc
        simp [ApiCall.data, bookingData, hsel]
  · rw [resourceSelectRendered_foldl]
    exact hg
  · have he : isEditMode (evs.foldl applyEvent (initEditState bid admin fb)) = true := by
      rw [isEditMode_foldl]
      rfl
    simp [editResourceInput, he]

/-- Claim C9 witness: a concrete edit-mode interaction changing start
time, notes and status leaves the selected resource at fetched value 9. -/
theorem c9_witness :
    (c9events.foldl applyEvent (initEditState 5 false c9fetched)).selectedResourceId =
      some c9fetched.resource :=
  (c9_theorem 5 false c9fetched c9events 0 (by decide)).1

/-- Claim C10: a selected file whose MIME type is not `image/*` or whose
size exceeds 5*1024*1024 bytes sets the matching error, issues no network
request (neither the Cloudinary POST nor the backend PATCH), and leaves
the preview URL unchanged. -/
theorem c10_theorem (st : UploadState) (f : JsFile) (cl : CloudinaryResult)
    (pOk : Bool) (pErr : Option String)
    (hbad : jsStartsWith f.type "image/" = false ∨ 5 * 1024 * 1024 < f.size) :
    (handleFileSelect st (some f) cl pOk pErr).2 = [] ∧
    ((handleFileSelect st (some f) cl pOk pErr).1).previewUrl = st.previewUrl ∧
    ((handleFileSelect st (some f) cl pOk pErr).1).error =
      (if jsStartsWith f.type "image/" then "Image must be less than 5MB"
       else "Please select an image file") := by
  unfold handleFileSelect
  by_cases himg : jsStartsWith f.type "image/" = true
  · rcases hbad with hb | hb
    · rw [himg] at hb
      cases hb
    · simp [himg, hb]
  · simp [Bool.not_eq_true] at himg
    simp [himg]

/-- Claim C10 witness: selecting a 10-byte text/plain file sets the
image-type error, issues no request and keeps the old preview. -/
theorem c10_witness :
    (handleFileSelect c10state (some c10badFile) c10cloudinary true none).2 = [] ∧
    ((handleFileSelect c10state (some c10badFile) c10cloudinary true none).1).previewUrl =
      c10state.previewUrl ∧
    ((handleFileSelect c10state (some c10badFile) c10cloudinary true none).1).error =
      "Please select an image file" := by
  have h := c10_theorem c10state c10badFile c10cloudinary true none (Or.inl (by decide))
  exact ⟨h.1, h.2.1, by rw [h.2.2]; decide⟩

end BookingSystem
